import Mathlib

/-!
Verification of the claude-wrapped statistics/presentation code.

The definitions below are a shallow embedding of the Python sources under
`src/claude_code_wrapped/` (`main.py`, `ui.py`,
`exporters/markdown_exporter.py`, `exporters/html_exporter.py`).  Python
`int` values become `Nat`, Python `float` currency/ratio arithmetic is
modelled exactly over `ℚ`, Python division is modelled as an `Option`
returning `none` exactly where CPython raises `ZeroDivisionError`, and
`dict`s preserving insertion order are modelled as association lists.
The `WrappedStats` structure itself is produced by the repository's
`stats.py`, which is not part of the provided sources; its shape is
modelled from the spec (§3, §6) and from the fields the provided
consumers read.
-/

/-- Lower-cased character list of a string; embeds Python's
`model.lower()` (ASCII case folding suffices for the model-id alphabet). -/
def modelLower (model : String) : List Char :=
  model.data.map Char.toLower

/-- Embeds Python's substring test `needle in hay` on character lists. -/
def hasSub (needle : List Char) : List Char → Bool
  | [] => needle.isEmpty
  | c :: t => needle.isPrefixOf (c :: t) || hasSub needle t

/-- Embeds `simplify_model_name` from `ui.py` (lines 652..669): an
if/elif chain of substring tests on the lower-cased model id, falling
through to the unchanged input. -/
def simplify_model_name (model : String) : String :=
  let ml := modelLower model
  if hasSub "opus-4-5".data ml || hasSub "opus-4.5".data ml then "Opus 4.5"
  else if hasSub "opus-4-1".data ml || hasSub "opus-4.1".data ml then "Opus 4.1"
  else if hasSub "opus".data ml then "Opus"
  else if hasSub "sonnet-4-5".data ml || hasSub "sonnet-4.5".data ml then "Sonnet 4.5"
  else if hasSub "sonnet".data ml then "Sonnet"
  else if hasSub "haiku-4-5".data ml || hasSub "haiku-4.5".data ml then "Haiku 4.5"
  else if hasSub "haiku".data ml then "Haiku"
  else model

/-- The seven family+version display labels named by the claim about
`simplify_model_name`. -/
def familyLabels : List String :=
  ["Opus 4.5", "Opus 4.1", "Opus", "Sonnet 4.5", "Sonnet", "Haiku 4.5", "Haiku"]

/-- C8 counterexample: an identifier from outside the Claude families is
returned unchanged, which is not one of the seven closed labels. -/
theorem simplify_model_name_escapes_label_set :
    simplify_model_name "gpt-4o" = "gpt-4o" ∧ "gpt-4o" ∉ familyLabels := by
  constructor
  · rfl
  · decide

/-- C8 (amended): `simplify_model_name` either returns one of the seven
closed family+version labels or returns its input unchanged; whenever the
lower-cased input mentions one of the family names `opus`, `sonnet`,
`haiku`, the result is one of the seven labels. -/
theorem simplify_model_name_amended (model : String) :
    (simplify_model_name model ∈ familyLabels ∨ simplify_model_name model = model) ∧
    ((hasSub "opus".data (modelLower model) || hasSub "sonnet".data (modelLower model)
        || hasSub "haiku".data (modelLower model)) = true →
      simplify_model_name model ∈ familyLabels) := by
  unfold simplify_model_name
  simp only []
  split_ifs <;> simp_all [familyLabels]

/-- C8 witness: the amended theorem applied to a dated Sonnet identifier. -/
theorem simplify_model_name_amended_witness :
    (hasSub "opus".data (modelLower "claude-sonnet-4-5-20250929")
      || hasSub "sonnet".data (modelLower "claude-sonnet-4-5-20250929")
      || hasSub "haiku".data (modelLower "claude-sonnet-4-5-20250929")) = true ∧
    simplify_model_name "claude-sonnet-4-5-20250929" ∈ familyLabels := by
  refine ⟨by decide, ?_⟩
  exact (simplify_model_name_amended "claude-sonnet-4-5-20250929").2 (by decide)

/-- A calendar date.  The Python code keys daily buckets by the ISO
rendering `YYYY-MM-DD` of the local date; since that rendering is
injective, dates themselves serve as keys here. -/
structure Date where
  year : Nat
  month : Nat
  day : Nat
deriving DecidableEq, Repr

/-- Embeds Python `<` on dates (lexicographic year, month, day). -/
def dateLt (a b : Date) : Bool :=
  a.year < b.year ||
    (a.year == b.year && (a.month < b.month ||
      (a.month == b.month && a.day < b.day)))

/-- One daily bucket of `stats.daily_stats` (the spec's `DailyBucket`):
the consumers in `ui.py` and the exporters read only `message_count`. -/
structure DayStat where
  message_count : Nat
  token_total : Nat
deriving DecidableEq, Repr

/-- One monthly token bucket of `stats.monthly_tokens`; the consumers
read the keys `input`, `output`, `cache_create`, `cache_read` with
default 0. -/
structure MonthTokens where
  input : Nat
  output : Nat
  cache_create : Nat
  cache_read : Nat
deriving DecidableEq, Repr

/-- Modelled from the spec: the `WrappedStats` aggregate produced by the
repository's `stats.py` (absent from the provided sources).  Field names
and types follow §3/§6 of the spec and the reads performed by `main.py`,
`ui.py` and the exporters.  Python floats (costs, averages) are modelled
over `ℚ`; nullable fields over `Option`; insertion-ordered dicts and
pre-sorted top lists over association lists. -/
structure WrappedStats where
  year : Option Nat
  total_messages : Nat
  total_user_messages : Nat
  total_assistant_messages : Nat
  total_sessions : Nat
  total_projects : Nat
  total_tokens : Nat
  total_input_tokens : Nat
  total_output_tokens : Nat
  total_cache_creation_tokens : Nat
  total_cache_read_tokens : Nat
  active_days : Nat
  late_night_days : Nat
  streak_longest : Nat
  streak_current : Nat
  streak_longest_start : Option Date
  streak_longest_end : Option Date
  most_active_hour : Option Nat
  most_active_day : Option (Date × Nat)
  primary_model : Option String
  top_tools : List (String × Nat)
  top_mcps : List (String × Nat)
  top_projects : List (String × Nat)
  hourly_distribution : List Nat
  weekday_distribution : List Nat
  estimated_cost : Option ℚ
  cost_by_model : List (String × ℚ)
  avg_messages_per_day : ℚ
  avg_messages_per_week : ℚ
  avg_messages_per_month : ℚ
  avg_cost_per_day : Option ℚ
  avg_cost_per_week : Option ℚ
  avg_cost_per_month : Option ℚ
  total_edits : Nat
  total_writes : Nat
  avg_edits_per_day : ℚ
  avg_edits_per_week : ℚ
  monthly_costs : List (String × ℚ)
  monthly_tokens : List (String × MonthTokens)
  daily_stats : List (Date × DayStat)
  models_used : List (String × Nat)
  first_message_date : Option Date
  last_message_date : Option Date
  longest_conversation_messages : Nat
  longest_conversation_tokens : Nat
  longest_conversation_date : Option Date
deriving DecidableEq, Repr

/-- An all-zero / all-empty `WrappedStats`, the base point for the
concrete stats values used in counterexamples and witnesses. -/
def baseStats : WrappedStats where
  year := some 2025
  total_messages := 0
  total_user_messages := 0
  total_assistant_messages := 0
  total_sessions := 0
  total_projects := 0
  total_tokens := 0
  total_input_tokens := 0
  total_output_tokens := 0
  total_cache_creation_tokens := 0
  total_cache_read_tokens := 0
  active_days := 0
  late_night_days := 0
  streak_longest := 0
  streak_current := 0
  streak_longest_start := none
  streak_longest_end := none
  most_active_hour := none
  most_active_day := none
  primary_model := none
  top_tools := []
  top_mcps := []
  top_projects := []
  hourly_distribution := List.replicate 24 0
  weekday_distribution := List.replicate 7 0
  estimated_cost := none
  cost_by_model := []
  avg_messages_per_day := 0
  avg_messages_per_week := 0
  avg_messages_per_month := 0
  avg_cost_per_day := none
  avg_cost_per_week := none
  avg_cost_per_month := none
  total_edits := 0
  total_writes := 0
  avg_edits_per_day := 0
  avg_edits_per_week := 0
  monthly_costs := []
  monthly_tokens := []
  daily_stats := []
  models_used := []
  first_message_date := none
  last_message_date := none
  longest_conversation_messages := 0
  longest_conversation_tokens := 0
  longest_conversation_date := none

/-- The personality card returned by `determine_personality`
(`ui.py` 586..609): an emoji, a title and a description. -/
structure Personality where
  emoji : String
  title : String
  description : String
deriving DecidableEq, Repr

/-- `night_hours` of `determine_personality`: Python
`sum(hourly_distribution[22:]) + sum(hourly_distribution[:6])`. -/
def nightHours (s : WrappedStats) : Nat :=
  (s.hourly_distribution.drop 22).sum + (s.hourly_distribution.take 6).sum

/-- `day_hours` of `determine_personality`: Python
`sum(hourly_distribution[6:22])`. -/
def dayHours (s : WrappedStats) : Nat :=
  ((s.hourly_distribution.drop 6).take 16).sum

/-- `top_tool` of `determine_personality`: Python
`top_tools[0][0] if top_tools else None`. -/
def topTool (s : WrappedStats) : Option String :=
  s.top_tools.head?.map Prod.fst

/-- `weekend_msgs` of `determine_personality`: Python
`weekday_distribution[5] + weekday_distribution[6]` (the stats invariant
gives the list 7 entries; out-of-range reads default to 0 here). -/
def weekendMsgs (s : WrappedStats) : Nat :=
  s.weekday_distribution.getD 5 0 + s.weekday_distribution.getD 6 0

/-- `weekday_msgs` of `determine_personality`: Python
`sum(weekday_distribution[:5])`. -/
def weekdayMsgs (s : WrappedStats) : Nat :=
  (s.weekday_distribution.take 5).sum

/-- Python `Counter.get(key, 0)` on the `models_used` counter. -/
def counterGet (l : List (String × Nat)) (k : String) : Nat :=
  (l.lookup k).getD 0

/-- Embeds `determine_personality` from `ui.py` (lines 586..609): the
if/elif chain over the stats fields.  The float literals 0.4 and 0.5
are modelled exactly as the rationals 4/10 and 5/10. -/
def determine_personality (s : WrappedStats) : Personality :=
  if (nightHours s : ℚ) > (dayHours s : ℚ) * (4/10) then
    ⟨"🦉", "Night Owl", "The quiet hours are your sanctuary."⟩
  else if s.streak_longest ≥ 14 then
    ⟨"🔥", "Streak Master", toString s.streak_longest ++ " days. Unstoppable."⟩
  else if topTool s = some "Edit" then
    ⟨"🎨", "The Refactorer", "You see beauty in clean code."⟩
  else if topTool s = some "Bash" then
    ⟨"⚡", "Terminal Warrior", "Command line is your domain."⟩
  else if s.total_projects ≥ 5 then
    ⟨"🚀", "Empire Builder", toString s.total_projects ++ " projects. Legend."⟩
  else if (weekendMsgs s : ℚ) > (weekdayMsgs s : ℚ) * (5/10) then
    ⟨"🌙", "Weekend Warrior", "Passion fuels your weekends."⟩
  else if counterGet s.models_used "Opus" > counterGet s.models_used "Sonnet" then
    ⟨"🎯", "Perfectionist", "Only the best will do."⟩
  else
    ⟨"💻", "Dedicated Dev", "Steady and reliable."⟩

/-- The spec's data-driven reading of the same rules: an ordered list of
(predicate, result) pairs, in the source's order. -/
def personalityRules : List ((WrappedStats → Bool) × (WrappedStats → Personality)) :=
  [ (fun s => decide ((nightHours s : ℚ) > (dayHours s : ℚ) * (4/10)),
      fun _ => ⟨"🦉", "Night Owl", "The quiet hours are your sanctuary."⟩),
    (fun s => decide (s.streak_longest ≥ 14),
      fun s => ⟨"🔥", "Streak Master", toString s.streak_longest ++ " days. Unstoppable."⟩),
    (fun s => decide (topTool s = some "Edit"),
      fun _ => ⟨"🎨", "The Refactorer", "You see beauty in clean code."⟩),
    (fun s => decide (topTool s = some "Bash"),
      fun _ => ⟨"⚡", "Terminal Warrior", "Command line is your domain."⟩),
    (fun s => decide (s.total_projects ≥ 5),
      fun s => ⟨"🚀", "Empire Builder", toString s.total_projects ++ " projects. Legend."⟩),
    (fun s => decide ((weekendMsgs s : ℚ) > (weekdayMsgs s : ℚ) * (5/10)),
      fun _ => ⟨"🌙", "Weekend Warrior", "Passion fuels your weekends."⟩),
    (fun s => decide (counterGet s.models_used "Opus" > counterGet s.models_used "Sonnet"),
      fun _ => ⟨"🎯", "Perfectionist", "Only the best will do."⟩) ]

/-- First-match evaluation of an ordered rule list. -/
def firstMatch (s : WrappedStats) :
    List ((WrappedStats → Bool) × (WrappedStats → Personality)) → Option Personality
  | [] => none
  | (p, r) :: rest => if p s then some (r s) else firstMatch s rest

/-- C6: `determine_personality` is total and equals first-match
evaluation of the fixed, ordered rule chain (night owl, streak master,
refactorer, terminal warrior, empire builder, weekend warrior,
perfectionist) with default "Dedicated Dev"; the Night Owl rule fires
whenever the night-hour count exceeds 0.4 times the remaining hours'
count, regardless of every other field. -/
theorem determine_personality_first_match (s : WrappedStats) :
    determine_personality s =
      (firstMatch s personalityRules).getD ⟨"💻", "Dedicated Dev", "Steady and reliable."⟩ ∧
    ((nightHours s : ℚ) > (dayHours s : ℚ) * (4/10) →
      (determine_personality s).title = "Night Owl") := by
  constructor
  · unfold determine_personality
    simp only [personalityRules, firstMatch, decide_eq_true_eq]
    split_ifs <;> rfl
  · intro h
    unfold determine_personality
    rw [if_pos h]

/-- A stats value whose activity is entirely at 23:00. -/
def nightOwlStats : WrappedStats :=
  { baseStats with hourly_distribution := List.replicate 23 0 ++ [10] }

/-- C6 witness: a stats value whose activity is entirely at 23:00
is classified Night Owl by the chain. -/
theorem determine_personality_first_match_witness :
    determine_personality nightOwlStats =
      (firstMatch nightOwlStats personalityRules).getD
        ⟨"💻", "Dedicated Dev", "Steady and reliable."⟩ ∧
    (determine_personality nightOwlStats).title = "Night Owl" := by
  refine ⟨(determine_personality_first_match _).1, ?_⟩
  apply (determine_personality_first_match _).2
  have hn : nightHours nightOwlStats = 10 := by decide
  have hd : dayHours nightOwlStats = 0 := by decide
  rw [hn, hd]
  norm_num

/-- Modelled from the spec (§3): one normalized `MessageRecord` as
produced by the repository's reader module (absent from the provided
sources).  `main.py` only tests the loaded record list for emptiness
before aggregating. -/
structure MessageRecord where
  date : Date
  hour : Nat
  role : String
  session_id : String
  project : Option String
  model : Option String
  tool : Option String
  mcp : Option String
  input_tokens : Nat
  output_tokens : Nat
  cache_write_tokens : Nat
  cache_read_tokens : Nat

/-- The observable outcome of `main` after loading: either the
"no activity" early exit, or a report built from an aggregate. -/
inductive MainOutcome where
  | noActivity : MainOutcome
  | report : WrappedStats → MainOutcome

/-- Embeds the control flow of `main.py` (lines 116..124) after
`load_all_messages` has applied the year filter: `if not messages`
prints the "No Claude Code activity found" message and exits with
status 0 before `aggregate_stats` runs; otherwise aggregation produces
the stats that all rendering and exporting consume.  The aggregation
function itself lives in the missing stats module and is abstracted as
the parameter `agg`. -/
def mainFlow (agg : List MessageRecord → WrappedStats)
    (messages : List MessageRecord) : MainOutcome :=
  if messages.isEmpty then MainOutcome.noActivity
  else MainOutcome.report (agg messages)

/-- C7: on an empty filtered record list, `main` surfaces the
"no activity" outcome without invoking aggregation — for every possible
aggregation function the outcome is `noActivity` and no `WrappedStats`
report is produced. -/
theorem mainFlow_empty_no_activity (agg : List MessageRecord → WrappedStats) :
    mainFlow agg [] = MainOutcome.noActivity ∧
    ∀ s : WrappedStats, mainFlow agg [] ≠ MainOutcome.report s := by
  refine ⟨rfl, ?_⟩
  intro s h
  exact MainOutcome.noConfusion h

/-- Python `max` over a list of non-negative integers (0 for an empty
list; the sources only call it on non-empty data). -/
def listMaxNat (l : List Nat) : Nat := l.foldl max 0

/-- The `max_count` scaling factor shared by the three contribution
graphs: `max(s.message_count for s in daily_stats.values()) if
daily_stats else 1` (identical line in `ui.py` 316,
`markdown_exporter.py` 145, `html_exporter.py` 529). -/
def contribMaxCount (ds : List (Date × DayStat)) : Nat :=
  if ds.isEmpty then 1 else listMaxNat (ds.map (fun p => p.2.message_count))

/-- The shared per-day intensity expression
`min(4, 1 + int((count / max_count) * 3)) if count > 0 else 0`;
`int` truncation of the non-negative float ratio is exact natural
floor division here. -/
def contribLevel (count maxCount : Nat) : Nat :=
  if 0 < count then min 4 (1 + 3 * count / maxCount) else 0

/-- Embeds the per-date cell level of `ui.get_contribution_data`
(`ui.py` 327..334): dates outside the requested year get level 0, dates
with a daily bucket get the intensity formula, dates without one get 0. -/
def uiCellLevel (ds : List (Date × DayStat)) (year : Option Nat) (d : Date) : Nat :=
  let maxCount := contribMaxCount ds
  match year with
  | some y =>
      if d.year ≠ y then 0
      else
        match ds.lookup d with
        | some st => contribLevel st.message_count maxCount
        | none => 0
  | none =>
      match ds.lookup d with
      | some st => contribLevel st.message_count maxCount
      | none => 0

/-- Embeds the per-date cell of `markdown_exporter._build_contribution_graph`
(lines 157..164): dates outside `[start_date, end_date]` become `None`
(no cell), in-range dates get the intensity level. -/
def mdCellLevel (ds : List (Date × DayStat)) (start stop d : Date) : Option Nat :=
  if dateLt d start || dateLt stop d then none
  else
    some (match ds.lookup d with
      | some st => contribLevel st.message_count (contribMaxCount ds)
      | none => 0)

/-- Embeds the per-date cell of `html_exporter._build_contribution_graph`
(lines 541..548): as in the Markdown exporter but carrying
`(level, count, date)` for the SVG tooltip. -/
def htmlCell (ds : List (Date × DayStat)) (start stop d : Date) :
    Option (Nat × Nat × Date) :=
  if dateLt d start || dateLt stop d then none
  else
    match ds.lookup d with
    | some st => some (contribLevel st.message_count (contribMaxCount ds),
        st.message_count, d)
    | none => some (0, 0, d)

/-- C10: for the same daily-stats map, year and date, the three
contribution renderers assign the identical intensity level whenever the
date lies in the rendered range and matches the year filter; the level
is `min(4, 1 + ⌊3·count/max_count⌋)` for a date with a positive message
count, `0` for a date with no bucket, and always at most 4. -/
theorem contribution_levels_agree (ds : List (Date × DayStat))
    (year : Option Nat) (start stop d : Date)
    (hin : (dateLt d start || dateLt stop d) = false)
    (hyr : ∀ y, year = some y → d.year = y) :
    mdCellLevel ds start stop d = some (uiCellLevel ds year d) ∧
    (htmlCell ds start stop d).map (fun c => c.1) = some (uiCellLevel ds year d) ∧
    uiCellLevel ds year d ≤ 4 ∧
    (∀ st, ds.lookup d = some st → 0 < st.message_count →
      uiCellLevel ds year d = min 4 (1 + 3 * st.message_count / contribMaxCount ds)) ∧
    (ds.lookup d = none → uiCellLevel ds year d = 0) := by
  have hui : uiCellLevel ds year d =
      (match ds.lookup d with
        | some st => contribLevel st.message_count (contribMaxCount ds)
        | none => 0) := by
    unfold uiCellLevel
    cases year with
    | none => rfl
    | some y => simp [hyr y rfl]
  have hle : ∀ c m, contribLevel c m ≤ 4 := by
    intro c m
    unfold contribLevel
    split_ifs
    · exact min_le_left _ _
    · omega
  refine ⟨?_, ?_, ?_, ?_, ?_⟩
  · unfold mdCellLevel
    rw [hin, if_neg (by simp), hui]
  · unfold htmlCell
    rw [hin, if_neg (by simp), hui]
    cases ds.lookup d <;> rfl
  · rw [hui]
    cases ds.lookup d with
    | none => simp
    | some st => exact hle _ _
  · intro st hst hpos
    rw [hui, hst]
    show contribLevel st.message_count (contribMaxCount ds) = _
    unfold contribLevel
    rw [if_pos hpos]
  · intro hnone
    rw [hui, hnone]

/-- C10 witness: the agreement theorem applied to a concrete two-day
map inside January 2025. -/
theorem contribution_levels_agree_witness :
    ((dateLt ⟨2025, 1, 2⟩ ⟨2025, 1, 1⟩ || dateLt ⟨2025, 1, 31⟩ ⟨2025, 1, 2⟩) = false) ∧
    mdCellLevel [(⟨2025, 1, 2⟩, ⟨3, 0⟩), (⟨2025, 1, 5⟩, ⟨9, 0⟩)]
        ⟨2025, 1, 1⟩ ⟨2025, 1, 31⟩ ⟨2025, 1, 2⟩ =
      some (uiCellLevel [(⟨2025, 1, 2⟩, ⟨3, 0⟩), (⟨2025, 1, 5⟩, ⟨9, 0⟩)]
        (some 2025) ⟨2025, 1, 2⟩) := by
  refine ⟨by decide, ?_⟩
  exact (contribution_levels_agree _ (some 2025) _ _ _ (by decide)
    (by intro y hy; cases hy; rfl)).1

/-- Embeds the peak-hour rendering of `ui.create_credits_roll`
(`ui.py` 843..848): `hour_label = "AM" if h < 12 else "PM"`,
`hour_12 = h % 12 or 12` (Python `or` yields 12 exactly when `h % 12`
is 0), then `f"{hour_12}:00 {hour_label}"`. -/
def uiPeakHourText (h : Nat) : String :=
  let lbl := if h < 12 then "AM" else "PM"
  let h12 := if h % 12 = 0 then 12 else h % 12
  s!"{h12}:00 {lbl}"

/-- Embeds the peak-hour rendering of `markdown_exporter._build_credits`
(lines 392..395), character-identical to the terminal renderer's. -/
def mdPeakHourText (h : Nat) : String :=
  let lbl := if h < 12 then "AM" else "PM"
  let h12 := if h % 12 = 0 then 12 else h % 12
  s!"{h12}:00 {lbl}"

/-- Embeds the peak-hour rendering of `html_exporter._build_credits`
(lines 931..938), character-identical to the terminal renderer's. -/
def htmlPeakHourText (h : Nat) : String :=
  let lbl := if h < 12 then "AM" else "PM"
  let h12 := if h % 12 = 0 then 12 else h % 12
  s!"{h12}:00 {lbl}"

/-- C9: for every hour 0..23 the terminal credits, Markdown credits and
HTML credits render the same 12-hour label: the displayed hour is
`h % 12`, shown as 12 when the remainder is 0, suffixed AM exactly when
`h < 12`; midnight renders as "12:00 AM" and noon as "12:00 PM". -/
theorem peak_hour_renderings_agree (h : Nat) (hh : h ≤ 23) :
    uiPeakHourText h = mdPeakHourText h ∧
    uiPeakHourText h = htmlPeakHourText h ∧
    uiPeakHourText h =
      toString (if h % 12 = 0 then 12 else h % 12) ++ ":00 " ++
        (if h < 12 then "AM" else "PM") ∧
    uiPeakHourText 0 = "12:00 AM" ∧
    uiPeakHourText 12 = "12:00 PM" := by
  refine ⟨rfl, rfl, ?_, by decide, by decide⟩
  interval_cases h <;> decide

/-- C9 witness: the agreement theorem applied at hour 13. -/
theorem peak_hour_renderings_agree_witness :
    (13 : Nat) ≤ 23 ∧ uiPeakHourText 13 = mdPeakHourText 13 ∧
    uiPeakHourText 13 = "1:00 PM" := by
  refine ⟨by decide, (peak_hour_renderings_agree 13 (by decide)).1, ?_⟩
  have := (peak_hour_renderings_agree 13 (by decide)).2.2.1
  rw [this]
  decide

/-- Division as CPython evaluates it: `a / b` raises `ZeroDivisionError`
when `b = 0`, modelled as `none`. -/
def pyDiv (a b : Nat) : Option ℚ := if b = 0 then none else some ((a : ℚ) / b)

/-- Option-sequencing of a per-element computation, `none` as soon as
one element faults (the loops in the chart builders run left to right). -/
def optMap {α β : Type} (f : α → Option β) : List α → Option (List β)
  | [] => some []
  | a :: t =>
      match f a, optMap f t with
      | some b, some bs => some (b :: bs)
      | _, _ => none

/-- Embeds the weekday bar widths of `markdown_exporter._build_charts`
(lines 202..210): `max_weekday = max(dist) if dist else 1` — 0 for a
non-empty all-zero distribution — then, for each of the seven zipped
days, `bar_width = int((count / max_weekday) * 30)` with no zero guard. -/
def mdWeekdayBars (dist : List Nat) : Option (List Nat) :=
  let maxW := if dist.isEmpty then 1 else listMaxNat dist
  optMap (fun count => (pyDiv count maxW).map (fun q => (⌊q * 30⌋).toNat))
    (dist.take 7)

/-- Embeds the hourly bar widths of `markdown_exporter._build_charts`
(lines 213..221): hours with `count > 0` get
`int((count / max_hourly) * 40)`, others produce no row (and perform no
division). -/
def mdHourlyBars (dist : List Nat) : Option (List (Option Nat)) :=
  let maxH := if dist.isEmpty then 1 else listMaxNat dist
  optMap (fun count =>
      if 0 < count then (pyDiv count maxH).map (fun q => some ((⌊q * 40⌋).toNat))
      else some none)
    dist

/-- Embeds the bar lengths of `ui.create_weekday_chart`
(`ui.py` 515..538): `max_val = max(dist) if any(dist) else 1`,
`bar_width = max(10, width - 18)`, and the guarded
`bar_len = int((count / max_val) * bar_width) if max_val > 0 else 0`. -/
def uiWeekdayBars (width : Nat) (dist : List Nat) : Option (List Nat) :=
  let maxV := if dist.any (fun n => n ≠ 0) then listMaxNat dist else 1
  let barWidth := max 10 (width - 18)
  optMap (fun count =>
      if 0 < maxV then (pyDiv count maxV).map (fun q => (⌊q * barWidth⌋).toNat)
      else some 0)
    (dist.take 7)

/-- Elements of `optMap` all succeed when every per-element computation
does. -/
theorem optMap_isSome {α β : Type} (f : α → Option β) (l : List α)
    (h : ∀ a ∈ l, (f a).isSome = true) : (optMap f l).isSome = true := by
  induction l with
  | nil => rfl
  | cons a t ih =>
      have ha := h a (List.mem_cons_self a t)
      have ht := ih (fun x hx => h x (List.mem_cons_of_mem a hx))
      unfold optMap
      cases hfa : f a with
      | none => rw [hfa] at ha; simp at ha
      | some b =>
          cases hot : optMap f t with
          | none => rw [hot] at ht; simp at ht
          | some bs => rfl

/-- The seed of a `foldl max` is at most the fold's result. -/
theorem foldl_max_init_le (l : List Nat) (c : Nat) : c ≤ l.foldl max c := by
  induction l generalizing c with
  | nil => exact le_refl c
  | cons y ys ihy => exact le_trans (le_max_left c y) (ihy (max c y))

/-- Every member of a list is at most its Python `max`. -/
theorem le_listMaxNat (l : List Nat) (a : Nat) (ha : a ∈ l) : a ≤ listMaxNat l := by
  have key : ∀ (t : List Nat) (b : Nat), a ∈ t → a ≤ t.foldl max b := by
    intro t
    induction t with
    | nil => intro b hb; cases hb
    | cons x xs ih =>
        intro b hb
        rcases List.mem_cons.mp hb with rfl | hmem
        · exact le_trans (le_max_right b a) (foldl_max_init_le xs (max b a))
        · exact ih (max b x) hmem
  exact key l 0 ha

/-- C4: the Markdown weekday chart divides by zero on an all-zero
weekday distribution (the `max_weekday` guard present in
`ui.create_weekday_chart` and in the HTML exporter is missing in
`markdown_exporter._build_charts`), while the terminal weekday chart
and the Markdown hourly chart never fault. -/
theorem markdown_weekday_chart_division_fault :
    mdWeekdayBars (List.replicate 7 0) = none ∧
    (∀ width dist, (uiWeekdayBars width dist).isSome = true) ∧
    (∀ dist, (mdHourlyBars dist).isSome = true) := by
  refine ⟨rfl, ?_, ?_⟩
  · intro width dist
    apply optMap_isSome
    intro a _
    by_cases hm : 0 < (if dist.any (fun n => n ≠ 0) then listMaxNat dist else 1)
    · rw [if_pos hm]
      unfold pyDiv
      rw [if_neg (Nat.pos_iff_ne_zero.mp hm)]
      rfl
    · rw [if_neg hm]
      rfl
  · intro dist
    apply optMap_isSome
    intro a ha
    by_cases hpos : 0 < a
    · rw [if_pos hpos]
      have hne : ¬dist.isEmpty := by
        cases dist with
        | nil => cases ha
        | cons x t => simp
      have hmax : 0 < (if dist.isEmpty then 1 else listMaxNat dist) := by
        rw [if_neg hne]
        exact lt_of_lt_of_le hpos (le_listMaxNat dist a ha)
      unfold pyDiv
      rw [if_neg (Nat.pos_iff_ne_zero.mp hmax)]
      rfl
    · rw [if_neg hpos]
      rfl

/-- The value placed in a cost cell: `format_cost` applied to a known
amount, or the literal "N/A".  The formatting function itself lives in
the missing pricing module, so cells are compared on the data fed to
it. -/
inductive CostCell where
  | na : CostCell
  | amount : ℚ → CostCell
deriving DecidableEq, Repr

/-- One Total row of a Monthly Cost Breakdown: the data fed to
`format_tokens` for the Input/Output/Cache cells and to the cost cell. -/
structure TotalRow where
  input : Nat
  output : Nat
  cache : Nat
  cost : CostCell
deriving DecidableEq, Repr

/-- Stable insertion of a string into an ascending list. -/
def insertStr (x : String) : List String → List String
  | [] => [x]
  | y :: t => if x ≤ y then x :: y :: t else y :: insertStr x t

/-- Python `sorted` on strings (ascending, here by insertion sort). -/
def sortStrings : List String → List String
  | [] => []
  | x :: t => insertStr x (sortStrings t)

/-- The terminal Total row's cost cell
(`format_cost(stats.estimated_cost) if stats.estimated_cost else "N/A"`):
Python truthiness turns both `None` and 0.0 into "N/A". -/
def terminalCostCell : Option ℚ → CostCell
  | some c => if c = 0 then CostCell.na else CostCell.amount c
  | none => CostCell.na

/-- The terminal renderer's Total row
(`ui.create_monthly_cost_table`, `ui.py` 719..728): emitted only when
there are months, its token cells read `stats.total_input_tokens`,
`stats.total_output_tokens` and the sum of the two stored cache totals,
and its cost cell reads `stats.estimated_cost`. -/
def terminalTotalRow (s : WrappedStats) : Option TotalRow :=
  if s.monthly_costs.isEmpty then none
  else
    some ⟨s.total_input_tokens, s.total_output_tokens,
      s.total_cache_creation_tokens + s.total_cache_read_tokens,
      terminalCostCell s.estimated_cost⟩

/-- Running totals accumulated by the exporters' monthly loops. -/
structure RunTotals where
  input : Nat
  output : Nat
  cache : Nat
  cost : ℚ
deriving DecidableEq, Repr

/-- One iteration of the month loop of
`markdown_exporter._build_monthly_costs` (lines 302..321): the month's
cost is always added to `total_cost`, while the token totals only grow
when the month also appears in `monthly_tokens`. -/
def mdMonthStep (s : WrappedStats) (acc : RunTotals) (m : String) : RunTotals :=
  let cost := (s.monthly_costs.lookup m).getD 0
  let acc' : RunTotals := { acc with cost := acc.cost + cost }
  match s.monthly_tokens.lookup m with
  | some tk =>
      { acc' with
          input := acc'.input + tk.input
          output := acc'.output + tk.output
          cache := acc'.cache + (tk.cache_create + tk.cache_read) }
  | none => acc'

/-- The recomputed totals of `markdown_exporter._build_monthly_costs`:
the fold of the month loop over the sorted month keys, starting from
`total_cost = total_input = total_output = total_cache = 0`. -/
def mdMonthlyTotals (s : WrappedStats) : RunTotals :=
  (sortStrings (s.monthly_costs.map Prod.fst)).foldl (mdMonthStep s) ⟨0, 0, 0, 0⟩

/-- The Markdown exporter's Total row (lines 288..323): absent when
`monthly_costs` is empty (the section is dropped), otherwise rendered
from the recomputed running totals — its cost cell is always
`format_cost(total_cost)`, never "N/A". -/
def mdTotalRow (s : WrappedStats) : Option TotalRow :=
  if s.monthly_costs.isEmpty then none
  else
    let t := mdMonthlyTotals s
    some ⟨t.input, t.output, t.cache, CostCell.amount t.cost⟩

/-- One iteration of the month loop of
`html_exporter._build_monthly_costs` (lines 760..786), line-identical to
the Markdown exporter's. -/
def htmlMonthStep (s : WrappedStats) (acc : RunTotals) (m : String) : RunTotals :=
  let cost := (s.monthly_costs.lookup m).getD 0
  let acc' : RunTotals := { acc with cost := acc.cost + cost }
  match s.monthly_tokens.lookup m with
  | some tk =>
      { acc' with
          input := acc'.input + tk.input
          output := acc'.output + tk.output
          cache := acc'.cache + (tk.cache_create + tk.cache_read) }
  | none => acc'

/-- The recomputed totals of `html_exporter._build_monthly_costs`. -/
def htmlMonthlyTotals (s : WrappedStats) : RunTotals :=
  (sortStrings (s.monthly_costs.map Prod.fst)).foldl (htmlMonthStep s) ⟨0, 0, 0, 0⟩

/-- The HTML exporter's Total row (lines 734..801). -/
def htmlTotalRow (s : WrappedStats) : Option TotalRow :=
  if s.monthly_costs.isEmpty then none
  else
    let t := htmlMonthlyTotals s
    some ⟨t.input, t.output, t.cache, CostCell.amount t.cost⟩

/-- A stats value on which the exporters' recomputed Total row differs
from the stored aggregate totals: one month with cost 5 and no
`monthly_tokens` entry, while the aggregate records 100 input tokens. -/
def monthlyMismatchStats : WrappedStats :=
  { baseStats with
      monthly_costs := [("2025-01", (5 : ℚ))]
      total_input_tokens := 100
      estimated_cost := some 5 }

/-- C3 counterexample: on `monthlyMismatchStats` the Markdown Total row
is recomputed from the monthly bucket maps (yielding 0 input tokens),
not read from the aggregate structure (100 input tokens, as the
terminal renderer shows); so the claimed property fails at this value. -/
theorem monthly_total_row_not_from_aggregate :
    mdTotalRow monthlyMismatchStats = some ⟨0, 0, 0, CostCell.amount 5⟩ ∧
    terminalTotalRow monthlyMismatchStats = some ⟨100, 0, 0, CostCell.amount 5⟩ ∧
    mdTotalRow monthlyMismatchStats ≠ terminalTotalRow monthlyMismatchStats := by
  have hmd : mdTotalRow monthlyMismatchStats = some ⟨0, 0, 0, CostCell.amount 5⟩ := by
    norm_num [mdTotalRow, mdMonthlyTotals, mdMonthStep, monthlyMismatchStats,
      baseStats, sortStrings, insertStr, List.lookup]
  have hterm : terminalTotalRow monthlyMismatchStats =
      some ⟨100, 0, 0, CostCell.amount 5⟩ := by
    norm_num [terminalTotalRow, terminalCostCell, monthlyMismatchStats, baseStats]
  refine ⟨hmd, hterm, ?_⟩
  rw [hmd, hterm]
  intro h
  exact absurd (congrArg (fun r => (Option.getD r ⟨0, 0, 0, CostCell.na⟩).input) h)
    (by decide)

/-- C3 (amended): only the terminal renderer reads the Total row from
the aggregate structure; the Markdown and HTML exporters recompute it by
summing the monthly bucket maps (cost over all months of
`monthly_costs`, tokens over the months also present in
`monthly_tokens`), agreeing with each other always, and with the
terminal row exactly when those recomputed sums coincide with the stored
aggregate fields and `estimated_cost` holds the non-zero recomputed
cost. -/
theorem monthly_total_rows_amended (s : WrappedStats) :
    (s.monthly_costs.isEmpty = false →
      terminalTotalRow s = some ⟨s.total_input_tokens, s.total_output_tokens,
        s.total_cache_creation_tokens + s.total_cache_read_tokens,
        terminalCostCell s.estimated_cost⟩) ∧
    mdTotalRow s = htmlTotalRow s ∧
    ((mdMonthlyTotals s).input = s.total_input_tokens →
      (mdMonthlyTotals s).output = s.total_output_tokens →
      (mdMonthlyTotals s).cache =
        s.total_cache_creation_tokens + s.total_cache_read_tokens →
      s.estimated_cost = some (mdMonthlyTotals s).cost →
      (mdMonthlyTotals s).cost ≠ 0 →
      mdTotalRow s = terminalTotalRow s) := by
  refine ⟨?_, rfl, ?_⟩
  · intro hne
    unfold terminalTotalRow
    rw [hne]
    rfl
  · intro hi ho hc hest hnz
    unfold mdTotalRow terminalTotalRow
    by_cases hemp : s.monthly_costs.isEmpty = true
    · rw [hemp]
      rfl
    · rw [Bool.not_eq_true] at hemp
      rw [hemp]
      simp only [Bool.false_eq_true, if_false, hest, terminalCostCell, if_neg hnz,
        hi, ho, hc]

/-- A stats value whose aggregates agree with its monthly buckets. -/
def monthlyConsistentStats : WrappedStats :=
  { baseStats with
      monthly_costs := [("2025-01", (5 : ℚ))]
      monthly_tokens := [("2025-01", ⟨100, 20, 3, 4⟩)]
      total_input_tokens := 100
      total_output_tokens := 20
      total_cache_creation_tokens := 3
      total_cache_read_tokens := 4
      estimated_cost := some 5 }

/-- C3 witness: the amended theorem applied to a consistent stats value,
on which the Markdown and terminal Total rows coincide. -/
theorem monthly_total_rows_amended_witness :
    mdTotalRow monthlyConsistentStats = terminalTotalRow monthlyConsistentStats := by
  have htot : mdMonthlyTotals monthlyConsistentStats = ⟨100, 20, 7, 5⟩ := by
    norm_num [mdMonthlyTotals, mdMonthStep, monthlyConsistentStats, baseStats,
      sortStrings, insertStr, List.lookup]
  exact (monthly_total_rows_amended monthlyConsistentStats).2.2
    (by rw [htot]; rfl) (by rw [htot]; rfl) (by rw [htot]; rfl) (by rw [htot]; rfl)
    (by rw [htot]; norm_num)

/-- Python `strftime('%B')`: the full month name. -/
def monthName : Nat → String
  | 1 => "January"
  | 2 => "February"
  | 3 => "March"
  | 4 => "April"
  | 5 => "May"
  | 6 => "June"
  | 7 => "July"
  | 8 => "August"
  | 9 => "September"
  | 10 => "October"
  | 11 => "November"
  | 12 => "December"
  | _ => ""

/-- Python `strftime('%d')`: the zero-padded day of month. -/
def pad2 (n : Nat) : String :=
  if n < 10 then "0" ++ toString n else toString n

/-- Python `strftime('%B %d, %Y')`, e.g. "January 05, 2026". -/
def formatLongDate (d : Date) : String :=
  monthName d.month ++ " " ++ pad2 d.day ++ ", " ++ toString d.year

/-- Embeds `format_year_display` from `ui.py` (lines 149..151). -/
def format_year_display (year : Option Nat) : String :=
  match year with
  | none => "All time"
  | some y => toString y

/-- Embeds `markdown_exporter._build_title_section` (lines 59..65): the
document's title block interpolates the current wall-clock date via
`datetime.now().strftime('%B %d, %Y')`, made explicit here as the
`now` parameter. -/
def mdTitleSection (now : Date) (year : Option Nat) : String :=
  "# 🎬 CLAUDE CODE WRAPPED\n## Your " ++ format_year_display year ++
    "\n\n*A year in review · Generated " ++ formatLongDate now ++ "*"

/-- Embeds `html_exporter._build_title_section` (lines 376..386),
which likewise interpolates `datetime.now()`. -/
def htmlTitleSection (now : Date) (year : Option Nat) : String :=
  "\n    <div class=\"section title-section\">\n        <div class=\"title-logo\"> CLAUDE CODE WRAPPED</div>\n        <div class=\"title-year\">Your " ++
    format_year_display year ++
    "</div>\n        <div class=\"title-credit\">\n            A year in review 路 Generated " ++
    formatLongDate now ++ "\n        </div>\n    </div>"

set_option maxRecDepth 8192 in
/-- C5 counterexample: the same stats exported on two consecutive days
yields different Markdown documents — the title section embeds the
generation date, so rendering is not a function of the stats alone. -/
theorem title_section_depends_on_clock :
    mdTitleSection ⟨2026, 1, 1⟩ (some 2025) ≠ mdTitleSection ⟨2026, 1, 2⟩ (some 2025) ∧
    htmlTitleSection ⟨2026, 1, 1⟩ (some 2025) ≠ htmlTitleSection ⟨2026, 1, 2⟩ (some 2025) := by
  constructor <;> decide

/-- C5 (amended): with the wall clock made an explicit input, both
exporters' title sections are pure functions of the stats year and the
generation date — two runs produce identical title sections exactly when
the rendered generation dates coincide. -/
theorem title_sections_deterministic_given_clock (year : Option Nat) (d d' : Date) :
    (mdTitleSection d year = mdTitleSection d' year ↔
      formatLongDate d = formatLongDate d') ∧
    (htmlTitleSection d year = htmlTitleSection d' year ↔
      formatLongDate d = formatLongDate d') := by
  constructor
  · unfold mdTitleSection
    constructor
    · intro h
      have hd := congrArg String.data h
      simp only [String.data_append, List.append_assoc] at hd
      have h1 := List.append_cancel_left hd
      have h2 := List.append_cancel_left h1
      have h3 := List.append_cancel_left h2
      exact String.ext (List.append_cancel_right h3)
    · intro h
      rw [h]
  · unfold htmlTitleSection
    constructor
    · intro h
      have hd := congrArg String.data h
      simp only [String.data_append, List.append_assoc] at hd
      have h1 := List.append_cancel_left hd
      have h2 := List.append_cancel_left h1
      have h3 := List.append_cancel_left h2
      exact String.ext (List.append_cancel_right h3)
    · intro h
      rw [h]

/-- C5 witness: two runs on the same calendar day produce the identical
title section. -/
theorem title_sections_deterministic_given_clock_witness :
    mdTitleSection ⟨2026, 1, 1⟩ (some 2025) = mdTitleSection ⟨2026, 1, 1⟩ (some 2025) := by
  exact (title_sections_deterministic_given_clock (some 2025) ⟨2026, 1, 1⟩
    ⟨2026, 1, 1⟩).1.mpr rfl

/-- Python dict accumulation
`d[name] = d.get(name, 0) + cost` on an insertion-ordered dict:
an existing key keeps its position and gains `cost`, a new key is
appended. -/
def dictAdd (acc : List (String × ℚ)) (name : String) (cost : ℚ) :
    List (String × ℚ) :=
  match acc with
  | [] => [(name, cost)]
  | (k, v) :: t =>
      if k = name then (k, v + cost) :: t else (k, v) :: dictAdd t name cost

/-- Embeds the `display_costs` grouping loop of
`markdown_exporter._build_credits` (lines 349..353): every
`cost_by_model` entry is re-keyed through `simplify_model_name` before
costs are summed per display label. -/
def mdDisplayCosts (cbm : List (String × ℚ)) : List (String × ℚ) :=
  cbm.foldl (fun acc p => dictAdd acc (simplify_model_name p.1) p.2) []

/-- Embeds the `display_costs` grouping loop of
`html_exporter._build_credits` (lines 829..833), line-identical to the
Markdown exporter's. -/
def htmlDisplayCosts (cbm : List (String × ℚ)) : List (String × ℚ) :=
  cbm.foldl (fun acc p => dictAdd acc (simplify_model_name p.1) p.2) []

/-- The per-model cost grouping emitted by the JSON export
(`main.py` line 176): `"cost_by_model": stats.cost_by_model`, with no
display simplification applied. -/
def jsonCostByModel (s : WrappedStats) : List (String × ℚ) := s.cost_by_model

/-- A stats value whose only priced model carries a dated Opus 4.5
identifier. -/
def datedOpusStats : WrappedStats :=
  { baseStats with cost_by_model := [("claude-opus-4-5-20251101", (3 : ℚ))] }

/-- C1 counterexample: on `datedOpusStats` the Markdown/HTML credits
group the cost under the display label "Opus 4.5", while the JSON
export keeps the raw identifier — for the displayed label the JSON
reports no cost figure at all, so the three outputs do not agree. -/
theorem cost_by_model_json_not_simplified :
    (mdDisplayCosts (jsonCostByModel datedOpusStats)).lookup "Opus 4.5" = some 3 ∧
    (jsonCostByModel datedOpusStats).lookup "Opus 4.5" = none ∧
    mdDisplayCosts (jsonCostByModel datedOpusStats) ≠ jsonCostByModel datedOpusStats := by
  refine ⟨by decide, by decide, by decide⟩

/-- A key absent from an association list looks up to `none`. -/
theorem lookup_none_of_not_mem_keys (acc : List (String × ℚ)) (name : String)
    (h : name ∉ acc.map Prod.fst) : acc.lookup name = none := by
  induction acc with
  | nil => rfl
  | cons p t ih =>
      simp only [List.map_cons, List.mem_cons, not_or] at h
      cases p with
      | mk k v =>
          have hne : (name == k) = false := beq_eq_false_iff_ne.mpr h.1
          simp [List.lookup, hne, ih h.2]

/-- Adding a fresh key to a Python dict appends it. -/
theorem dictAdd_not_mem (acc : List (String × ℚ)) (name : String) (cost : ℚ)
    (h : name ∉ acc.map Prod.fst) : dictAdd acc name cost = acc ++ [(name, cost)] := by
  induction acc with
  | nil => rfl
  | cons p t ih =>
      simp only [List.map_cons, List.mem_cons, not_or] at h
      cases p with
      | mk k v =>
          unfold dictAdd
          rw [if_neg (fun hk => h.1 hk.symm)]
          rw [ih h.2]
          rfl

/-- Grouping through `simplify_model_name` is the identity on a map
whose keys are pairwise distinct fixed points of the simplification. -/
theorem foldl_dictAdd_fixed (l acc : List (String × ℚ))
    (hfix : ∀ p ∈ l, simplify_model_name p.1 = p.1)
    (hnd : (acc.map Prod.fst ++ l.map Prod.fst).Nodup) :
    l.foldl (fun acc p => dictAdd acc (simplify_model_name p.1) p.2) acc = acc ++ l := by
  induction l generalizing acc with
  | nil => simp
  | cons p t ih =>
      have hp : simplify_model_name p.1 = p.1 := hfix p (List.mem_cons_self p t)
      have hnotmem : p.1 ∉ acc.map Prod.fst := by
        intro hmem
        have hdisj := (List.nodup_append.mp hnd).2.2
        exact hdisj hmem (by simp)
      have hstep : dictAdd acc (simplify_model_name p.1) p.2 = acc ++ [p] := by
        rw [hp, dictAdd_not_mem acc p.1 p.2 hnotmem]
      have hnd' : ((acc ++ [p]).map Prod.fst ++ t.map Prod.fst).Nodup := by
        simpa [List.map_append, List.append_assoc] using hnd
      show List.foldl _ (dictAdd acc (simplify_model_name p.1) p.2) t = _
      rw [hstep]
      rw [ih (acc ++ [p]) (fun q hq => hfix q (List.mem_cons_of_mem p hq)) hnd']
      simp

/-- C1 (amended): the Markdown and HTML exporters apply the same
`simplify_model_name` grouping and always agree with each other; the
JSON export emits `cost_by_model` without simplification, so all three
agree exactly on stats whose `cost_by_model` keys are pairwise distinct
fixed points of `simplify_model_name` (and can differ otherwise, as the
counterexample shows). -/
theorem cost_by_model_groupings_amended (s : WrappedStats) :
    mdDisplayCosts s.cost_by_model = htmlDisplayCosts s.cost_by_model ∧
    ((∀ p ∈ s.cost_by_model, simplify_model_name p.1 = p.1) →
      (s.cost_by_model.map Prod.fst).Nodup →
      mdDisplayCosts s.cost_by_model = jsonCostByModel s) := by
  refine ⟨rfl, ?_⟩
  intro hfix hnd
  unfold mdDisplayCosts jsonCostByModel
  rw [foldl_dictAdd_fixed s.cost_by_model [] hfix (by simpa using hnd)]
  rfl

/-- A stats value whose per-model costs are already keyed by display
labels. -/
def displayKeyedStats : WrappedStats :=
  { baseStats with cost_by_model := [("Opus", (2 : ℚ)), ("Sonnet", (3 : ℚ))] }

/-- C1 witness: the amended theorem applied to display-keyed stats, on
which the exporters' grouping equals the JSON export's map. -/
theorem cost_by_model_groupings_amended_witness :
    mdDisplayCosts displayKeyedStats.cost_by_model = jsonCostByModel displayKeyedStats := by
  exact (cost_by_model_groupings_amended displayKeyedStats).2 (by decide) (by decide)

/-- A JSON value, as far as the export of `main.py` needs: numbers
(Python ints and floats, over `ℚ`), strings, null, arrays and
insertion-ordered objects. -/
inductive JVal where
  | jnull : JVal
  | jnum : ℚ → JVal
  | jstr : String → JVal
  | jarr : List JVal → JVal
  | jobj : List (String × JVal) → JVal

/-- Python `round(q, nd)`: round to `nd` decimal digits, ties to the
even integer (the ideal decimal semantics of CPython's banker's
rounding, stated over `ℚ`). -/
def pyRound (q : ℚ) (nd : Nat) : ℚ :=
  let m : ℚ := (10 : ℚ) ^ nd
  let y := q * m
  let r : ℤ :=
    if y - (⌊y⌋ : ℚ) = 1/2 then (if ⌊y⌋ % 2 = 0 then ⌊y⌋ else ⌊y⌋ + 1)
    else ⌊y + 1/2⌋
  (r : ℚ) / m

/-- Python `strftime`-style zero padding to four digits (ISO year). -/
def pad4 (n : Nat) : String :=
  if n < 10 then "000" ++ toString n
  else if n < 100 then "00" ++ toString n
  else if n < 1000 then "0" ++ toString n
  else toString n

/-- Python `date.isoformat()`: `YYYY-MM-DD`. -/
def isoDate (d : Date) : String :=
  pad4 d.year ++ "-" ++ pad2 d.month ++ "-" ++ pad2 d.day

/-- The JSON value of the nullable cost averages
(`round(x, 2) if x else None` in `main.py`): Python truthiness maps both
`None` and 0.0 to `null`. -/
def jTruthyCost (c : Option ℚ) : JVal :=
  match c with
  | some q => if q = 0 then JVal.jnull else JVal.jnum (pyRound q 2)
  | none => JVal.jnull

/-- Embeds the `output` dict of `main.py` (lines 152..196) that is
serialized by `--json`: every key in source order with the value read
from the stats structure. -/
def jsonExport (s : WrappedStats) : List (String × JVal) :=
  [ ("year", match s.year with | some y => JVal.jnum y | none => JVal.jnull),
    ("total_messages", JVal.jnum s.total_messages),
    ("total_user_messages", JVal.jnum s.total_user_messages),
    ("total_assistant_messages", JVal.jnum s.total_assistant_messages),
    ("total_sessions", JVal.jnum s.total_sessions),
    ("total_projects", JVal.jnum s.total_projects),
    ("total_tokens", JVal.jnum s.total_tokens),
    ("total_input_tokens", JVal.jnum s.total_input_tokens),
    ("total_output_tokens", JVal.jnum s.total_output_tokens),
    ("active_days", JVal.jnum s.active_days),
    ("late_night_days", JVal.jnum s.late_night_days),
    ("streak_longest", JVal.jnum s.streak_longest),
    ("streak_current", JVal.jnum s.streak_current),
    ("most_active_hour", match s.most_active_hour with
      | some h => JVal.jnum h
      | none => JVal.jnull),
    ("most_active_day", match s.most_active_day with
      | some p => JVal.jstr (isoDate p.1)
      | none => JVal.jnull),
    ("most_active_day_messages", match s.most_active_day with
      | some p => JVal.jnum p.2
      | none => JVal.jnull),
    ("primary_model", match s.primary_model with
      | some m => JVal.jstr m
      | none => JVal.jnull),
    ("top_tools", JVal.jobj (s.top_tools.map (fun p => (p.1, JVal.jnum p.2)))),
    ("top_mcps", JVal.jobj (s.top_mcps.map (fun p => (p.1, JVal.jnum p.2)))),
    ("top_projects", JVal.jobj (s.top_projects.map (fun p => (p.1, JVal.jnum p.2)))),
    ("hourly_distribution",
      JVal.jarr (s.hourly_distribution.map (fun n : Nat => JVal.jnum (n : ℚ)))),
    ("weekday_distribution",
      JVal.jarr (s.weekday_distribution.map (fun n : Nat => JVal.jnum (n : ℚ)))),
    ("estimated_cost_usd", match s.estimated_cost with
      | some c => JVal.jnum c
      | none => JVal.jnull),
    ("cost_by_model", JVal.jobj (s.cost_by_model.map (fun p => (p.1, JVal.jnum p.2)))),
    ("avg_messages_per_day", JVal.jnum (pyRound s.avg_messages_per_day 1)),
    ("avg_messages_per_week", JVal.jnum (pyRound s.avg_messages_per_week 1)),
    ("avg_messages_per_month", JVal.jnum (pyRound s.avg_messages_per_month 1)),
    ("avg_cost_per_day", jTruthyCost s.avg_cost_per_day),
    ("avg_cost_per_week", jTruthyCost s.avg_cost_per_week),
    ("avg_cost_per_month", jTruthyCost s.avg_cost_per_month),
    ("total_edits", JVal.jnum s.total_edits),
    ("total_writes", JVal.jnum s.total_writes),
    ("avg_code_changes_per_day", JVal.jnum (pyRound s.avg_edits_per_day 1)),
    ("avg_code_changes_per_week", JVal.jnum (pyRound s.avg_edits_per_week 1)),
    ("monthly_costs", JVal.jobj (s.monthly_costs.map (fun p => (p.1, JVal.jnum p.2)))),
    ("monthly_tokens", JVal.jobj (s.monthly_tokens.map (fun p =>
      (p.1, JVal.jobj [("input", JVal.jnum p.2.input),
        ("output", JVal.jnum p.2.output),
        ("cache_create", JVal.jnum p.2.cache_create),
        ("cache_read", JVal.jnum p.2.cache_read)])))),
    ("longest_conversation_messages", JVal.jnum s.longest_conversation_messages),
    ("longest_conversation_tokens", JVal.jnum s.longest_conversation_tokens),
    ("longest_conversation_date", match s.longest_conversation_date with
      | some d => JVal.jstr (isoDate d)
      | none => JVal.jnull) ]

/-- The key set the JSON export actually emits, in source order. -/
def jsonExportKeys : List String :=
  ["year", "total_messages", "total_user_messages", "total_assistant_messages",
   "total_sessions", "total_projects", "total_tokens", "total_input_tokens",
   "total_output_tokens", "active_days", "late_night_days", "streak_longest",
   "streak_current", "most_active_hour", "most_active_day",
   "most_active_day_messages", "primary_model", "top_tools", "top_mcps",
   "top_projects", "hourly_distribution", "weekday_distribution",
   "estimated_cost_usd", "cost_by_model", "avg_messages_per_day",
   "avg_messages_per_week", "avg_messages_per_month", "avg_cost_per_day",
   "avg_cost_per_week", "avg_cost_per_month", "total_edits", "total_writes",
   "avg_code_changes_per_day", "avg_code_changes_per_week", "monthly_costs",
   "monthly_tokens", "longest_conversation_messages",
   "longest_conversation_tokens", "longest_conversation_date"]

/-- Two stats values differing only in the cache-write/cache-read token
totals. -/
def cacheStatsA : WrappedStats :=
  { baseStats with total_cache_creation_tokens := 5, total_cache_read_tokens := 6 }

/-- As `cacheStatsA` with different cache totals. -/
def cacheStatsB : WrappedStats :=
  { baseStats with total_cache_creation_tokens := 7, total_cache_read_tokens := 8 }

/-- C2 counterexample: the JSON export is insensitive to the
cache-write/cache-read token totals — two stats values that differ only
there produce the identical export object, so the export contains no
cache-token totals. -/
theorem json_export_omits_cache_totals :
    cacheStatsA.total_cache_creation_tokens ≠ cacheStatsB.total_cache_creation_tokens ∧
    cacheStatsA.total_cache_read_tokens ≠ cacheStatsB.total_cache_read_tokens ∧
    jsonExport cacheStatsA = jsonExport cacheStatsB := by
  refine ⟨by decide, by decide, rfl⟩

/-- C2 (amended): the JSON export emits exactly the 39 keys of
`jsonExportKeys` — all the fields named by the serialization contract
except the cache-write/cache-read token totals, on which the export does
not depend — and passes the hourly and weekday distributions through as
ordered arrays of the same lengths (24 and 7 under the aggregation
invariant). -/
theorem json_export_amended (s : WrappedStats)
    (h24 : s.hourly_distribution.length = 24)
    (h7 : s.weekday_distribution.length = 7) :
    (jsonExport s).map Prod.fst = jsonExportKeys ∧
    (jsonExport s).lookup "hourly_distribution" =
      some (JVal.jarr (s.hourly_distribution.map (fun n : Nat => JVal.jnum (n : ℚ)))) ∧
    (s.hourly_distribution.map (fun n : Nat => JVal.jnum (n : ℚ))).length = 24 ∧
    (jsonExport s).lookup "weekday_distribution" =
      some (JVal.jarr (s.weekday_distribution.map (fun n : Nat => JVal.jnum (n : ℚ)))) ∧
    (s.weekday_distribution.map (fun n : Nat => JVal.jnum (n : ℚ))).length = 7 ∧
    (∀ cw cr,
      jsonExport
          { s with
              total_cache_creation_tokens := cw
              total_cache_read_tokens := cr } =
        jsonExport s) := by
  refine ⟨rfl, rfl, by rw [List.length_map, h24], rfl, by rw [List.length_map, h7],
    fun cw cr => rfl⟩

/-- C2 witness: the amended theorem applied to the base stats value. -/
theorem json_export_amended_witness :
    baseStats.hourly_distribution.length = 24 ∧
    (jsonExport baseStats).map Prod.fst = jsonExportKeys := by
  refine ⟨by decide, ?_⟩
  exact (json_export_amended baseStats (by decide) (by decide)).1
